import Mathlib

/-!
Shallow embedding of the git-mcp-server tool handlers (src/index.ts).

Each tool handler is modelled as a pure function from a `Forge` stub
(one field per remote endpoint, returning `Except ApiError` data) and
the tool's arguments to a pair: the list of remote calls actually
issued (in issue order; the parallel blob-creation step is serialized
in file order) and the response `Envelope` the handler returns.
JavaScript truthiness on optional strings (`if (reason)`, `!owner`,
`query ?`) is modelled explicitly: `none` and `some ""` are falsy.
An absent `isError` key on a returned envelope is modelled as `false`.
-/

/-- An error raised by a remote call: optional HTTP status plus message. -/
structure ApiError where
  status : Option Nat
  message : String
deriving DecidableEq, Repr

/-- Data of a pull request as returned by the forge (the fields the code reads). -/
structure PRData where
  number : Nat
  title : String
  body : Option String
  html_url : String
  state : String
  created_at : String
  user : Option String
  mergeable : Option Bool
deriving DecidableEq, Repr

/-- One changed file of a pull request as returned by the forge. -/
structure PRFileData where
  filename : String
  status : String
  additions : Nat
  deletions : Nat
  changes : Nat
  patch : Option String
deriving DecidableEq, Repr

/-- Data of a repository as returned by the create-repository call. -/
structure RepoData where
  owner_login : String
  name : String
  default_branch : String
  html_url : String
deriving DecidableEq, Repr

/-- An input file for repository initialization. -/
structure RepoFile where
  path : String
  content : String
deriving DecidableEq, Repr

/-- Body of the repository-create request (`createParams` in the source). -/
structure CreateParams where
  name : String
  description : String
  isPrivate : Bool
  auto_init : Bool
deriving DecidableEq, Repr

/-- An entry of the tree-create request body. -/
structure TreeItem where
  path : String
  mode : String
  type : String
  sha : String
deriving DecidableEq, Repr

/-- A remote call issued by a handler, with its arguments. -/
inductive RemoteCall where
  | listPulls (owner repo state : String)
  | getPull (owner repo : String) (n : Nat)
  | postIssueComment (owner repo : String) (n : Nat) (body : String)
  | postReviewers (owner repo : String) (n : Nat) (reviewers : List String)
  | putMerge (owner repo : String) (n : Nat)
      (commitTitle commitMessage : Option String) (method : String)
  | getPullFiles (owner repo : String) (n : Nat)
  | patchIssueState (owner repo : String) (n : Nat) (state : String)
  | postUserRepo (p : CreateParams)
  | postOrgRepo (org : String) (p : CreateParams)
  | getRef (owner repo ref : String)
  | postBlob (owner repo content encoding : String)
  | getTree (owner repo sha recursive : String)
  | postTree (owner repo baseTree : String) (items : List TreeItem)
  | postCommit (owner repo message tree : String) (parents : List String)
  | patchRef (owner repo ref sha : String)
  | getRepo (owner repo : String)
  | deleteRepo (owner repo : String)
deriving DecidableEq, Repr

/-- The endpoint kind of a remote call, forgetting its arguments. -/
inductive CallKind where
  | listPulls | getPull | postIssueComment | postReviewers | putMerge
  | getPullFiles | patchIssueState | createRepo | fetchRef | createBlob
  | fetchTree | createTree | createCommit | updateRef | getRepo | deleteRepo
deriving DecidableEq, Repr

/-- Map a remote call to its endpoint kind. -/
def RemoteCall.kind : RemoteCall → CallKind
  | .listPulls .. => .listPulls
  | .getPull .. => .getPull
  | .postIssueComment .. => .postIssueComment
  | .postReviewers .. => .postReviewers
  | .putMerge .. => .putMerge
  | .getPullFiles .. => .getPullFiles
  | .patchIssueState .. => .patchIssueState
  | .postUserRepo .. => .createRepo
  | .postOrgRepo .. => .createRepo
  | .getRef .. => .fetchRef
  | .postBlob .. => .createBlob
  | .getTree .. => .fetchTree
  | .postTree .. => .createTree
  | .postCommit .. => .createCommit
  | .patchRef .. => .updateRef
  | .getRepo .. => .getRepo
  | .deleteRepo .. => .deleteRepo

/-- A content block of the response envelope; `type` is always "text" here. -/
structure ContentBlock where
  type : String
  text : String
deriving DecidableEq, Repr

/-- The uniform response envelope; a missing isError key is `false`. -/
structure Envelope where
  content : List ContentBlock
  isError : Bool
deriving DecidableEq, Repr

/-- Build a single-text-block envelope. -/
def textEnv (s : String) (err : Bool) : Envelope :=
  ⟨[⟨"text", s⟩], err⟩

/-- The forge stub: one field per consumed endpoint. -/
structure Forge where
  listPulls : String → String → String → Except ApiError (List PRData)
  getPull : String → String → Nat → Except ApiError PRData
  postIssueComment : String → String → Nat → String → Except ApiError Unit
  postReviewers : String → String → Nat → List String → Except ApiError Unit
  putMerge : String → String → Nat → Option String → Option String → String →
      Except ApiError Unit
  getPullFiles : String → String → Nat → Except ApiError (List PRFileData)
  patchIssueState : String → String → Nat → String → Except ApiError Unit
  postUserRepo : CreateParams → Except ApiError RepoData
  postOrgRepo : String → CreateParams → Except ApiError RepoData
  getRef : String → String → String → Except ApiError String
  postBlob : String → String → String → String → Except ApiError String
  getTree : String → String → String → String → Except ApiError String
  postTree : String → String → String → List TreeItem → Except ApiError String
  postCommit : String → String → String → String → List String →
      Except ApiError String
  patchRef : String → String → String → String → Except ApiError Unit
  getRepo : String → String → Except ApiError Unit
  deleteRepo : String → String → Except ApiError Unit

/-- JavaScript truthiness of an optional string: `undefined` and `""` are falsy. -/
def strTruthy : Option String → Bool
  | some s => s != ""
  | none => false

/-- JavaScript `x || d` on an optional string (falsy `x` replaced by `d`). -/
def orElseStr (x : Option String) (d : String) : String :=
  match x with
  | some s => if s = "" then d else s
  | none => d

/-- JSON string escaping for the characters relevant here. -/
def jsonEscapeChar (c : Char) : String :=
  if c = '"' then "\\\"" else if c = '\\' then "\\\\"
  else if c = '\n' then "\\n" else if c = '\r' then "\\r"
  else if c = '\t' then "\\t" else String.mk [c]

/-- JSON quoting of a string value. -/
def jsonQuote (s : String) : String :=
  "\"" ++ String.join (s.data.map jsonEscapeChar) ++ "\""

/-- The record a listed PR is mapped to before JSON rendering. -/
structure PRItem where
  number : Nat
  title : String
  url : String
  state : String
  created_at : String
  user : Option String
deriving DecidableEq, Repr

/-- The mapping applied to each listed PR (both list-prs and discuss-pr list mode). -/
def prToItem (pr : PRData) : PRItem :=
  ⟨pr.number, pr.title, pr.html_url, pr.state, pr.created_at, pr.user⟩

/-- Key/value pairs of a listed PR item, in insertion order; an undefined
`user` is omitted, as JSON.stringify omits undefined-valued keys. -/
def prItemFields (p : PRItem) : List (String × String) :=
  [("number", toString p.number),
   ("title", jsonQuote p.title),
   ("url", jsonQuote p.url),
   ("state", jsonQuote p.state),
   ("created_at", jsonQuote p.created_at)] ++
  (match p.user with
   | some u => [("user", jsonQuote u)]
   | none => [])

/-- Render one `"key": value` line at the given indentation. -/
def renderField (indent : String) (kv : String × String) : String :=
  indent ++ jsonQuote kv.1 ++ ": " ++ kv.2

/-- Render an object from its field list with JSON.stringify(-, null, 2)
layout, at nesting depth given by `indent`. -/
def renderObj (indent : String) (fields : List (String × String)) : String :=
  match fields with
  | [] => "\x7b\x7d"
  | _ =>
    indent ++ "\x7b\n" ++
      String.intercalate ",\n" (fields.map (renderField (indent ++ "  "))) ++
      "\n" ++ indent ++ "\x7d"

/-- JSON.stringify(prs, null, 2) for the mapped PR list. -/
def stringifyPRItems (ps : List PRItem) : String :=
  match ps with
  | [] => "[]"
  | _ => "[\n" ++
      String.intercalate ",\n" (ps.map (fun p => renderObj "  " (prItemFields p))) ++
      "\n]"

/-- Key/value pairs of the `prDetails` record of discuss-pr's detail mode. -/
def prDetailFields (pr : PRData) : List (String × String) :=
  [("number", toString pr.number),
   ("title", jsonQuote pr.title),
   ("body", jsonQuote (orElseStr pr.body "No description provided")),
   ("url", jsonQuote pr.html_url),
   ("state", jsonQuote pr.state),
   ("created_at", jsonQuote pr.created_at)] ++
  (match pr.user with
   | some u => [("user", jsonQuote u)]
   | none => [])

/-- JavaScript `state.charAt(0).toUpperCase() + state.slice(1)`. -/
def capitalizeFirst (s : String) : String :=
  match s.data with
  | [] => s
  | c :: cs => String.mk (c.toUpper :: cs)

/-- The list-prs tool handler. -/
def listPrs (g : Forge) (owner repo state : String) :
    List RemoteCall × Envelope :=
  match g.listPulls owner repo state with
  | .ok data =>
    ([.listPulls owner repo state],
     textEnv (capitalizeFirst state ++ " PRs for " ++ owner ++ "/" ++ repo ++
       ":\n\n" ++ stringifyPRItems (data.map prToItem)) false)
  | .error e =>
    ([.listPulls owner repo state],
     textEnv ("Error fetching PRs: " ++ e.message) true)

/-- The discuss-pr tool handler (dual mode on presence of prNumber). -/
def discussPr (g : Forge) (owner repo : String) (prNumber : Option Nat)
    (query : Option String) : List RemoteCall × Envelope :=
  match prNumber with
  | none =>
    match g.listPulls owner repo "open" with
    | .ok data =>
      ([.listPulls owner repo "open"],
       textEnv ("Open PRs for " ++ owner ++ "/" ++ repo ++
         ":\n\n" ++ stringifyPRItems (data.map prToItem)) false)
    | .error e =>
      ([.listPulls owner repo "open"],
       textEnv ("Error fetching PR s: " ++ e.message) true)
  | some n =>
    match g.getPull owner repo n with
    | .ok pr =>
      let details := renderObj "" (prDetailFields pr)
      let contentText :=
        if strTruthy query then
          "Discussion query for PR #" ++ toString n ++ ": " ++
            (query.getD "") ++ "\n\nDetails:\n" ++ details
        else
          "Details for PR #" ++ toString n ++ ":\n" ++ details
      ([.getPull owner repo n], textEnv contentText false)
    | .error e =>
      ([.getPull owner repo n],
       textEnv ("Error fetching PR " ++
         (if n ≠ 0 then "#" ++ toString n else "s") ++ ": " ++ e.message) true)

/-- JavaScript `s.substring(0, k)`. -/
def jsSubstring (s : String) (k : Nat) : String :=
  String.mk (s.data.take k)

/-- The comment-on-pr tool handler. -/
def commentOnPr (g : Forge) (owner repo : String) (prNumber : Nat)
    (comment : String) : List RemoteCall × Envelope :=
  match g.postIssueComment owner repo prNumber comment with
  | .ok _ =>
    ([.postIssueComment owner repo prNumber comment],
     textEnv ("✅ Comment posted on PR #" ++ toString prNumber ++ ": \"" ++
       jsSubstring comment 50 ++
       (if comment.length > 50 then "..." else "") ++ "\"") false)
  | .error e =>
    ([.postIssueComment owner repo prNumber comment],
     textEnv ("Error posting comment: " ++ e.message) true)

/-- The request-reviewers tool handler. -/
def requestReviewers (g : Forge) (owner repo : String) (prNumber : Nat)
    (reviewers : List String) : List RemoteCall × Envelope :=
  match g.postReviewers owner repo prNumber reviewers with
  | .ok _ =>
    ([.postReviewers owner repo prNumber reviewers],
     textEnv ("✅ Requested " ++ toString reviewers.length ++
       " reviewer(s) for PR #" ++ toString prNumber ++ ": " ++
       String.intercalate ", " reviewers) false)
  | .error e =>
    ([.postReviewers owner repo prNumber reviewers],
     textEnv ("Error requesting reviewers: " ++ e.message) true)

/-- The merge-pr tool handler: fetch the PR, gate on its mergeable flag,
then merge with method "merge". -/
def mergePr (g : Forge) (owner repo : String) (prNumber : Nat)
    (commitTitle commitMessage : Option String) : List RemoteCall × Envelope :=
  match g.getPull owner repo prNumber with
  | .error e =>
    ([.getPull owner repo prNumber],
     textEnv ("Error merging PR: " ++ e.message) true)
  | .ok pr =>
    if pr.mergeable = some true then
      match g.putMerge owner repo prNumber commitTitle commitMessage "merge" with
      | .ok _ =>
        ([.getPull owner repo prNumber,
          .putMerge owner repo prNumber commitTitle commitMessage "merge"],
         textEnv ("✅ Successfully merged PR #" ++ toString prNumber ++ "!") false)
      | .error e =>
        ([.getPull owner repo prNumber,
          .putMerge owner repo prNumber commitTitle commitMessage "merge"],
         textEnv ("Error merging PR: " ++ e.message) true)
    else
      ([.getPull owner repo prNumber],
       textEnv ("⚠️ PR #" ++ toString prNumber ++
         " is not mergeable. It may have conflicts that need to be resolved.") false)

/-- Total additions of the changed-file list: `files.reduce((sum, f) => sum + f.additions, 0)`. -/
def totalAdditions (files : List PRFileData) : Nat :=
  files.foldl (fun sum f => sum + f.additions) 0

/-- Total deletions of the changed-file list: `files.reduce((sum, f) => sum + f.deletions, 0)`. -/
def totalDeletions (files : List PRFileData) : Nat :=
  files.foldl (fun sum f => sum + f.deletions) 0

/-- The per-file section of the summarize-pr report. -/
def renderFileSection (f : PRFileData) : String :=
  "- **" ++ f.filename ++ "** (" ++ f.status ++ "): +" ++
    toString f.additions ++ " -" ++ toString f.deletions ++ "\n" ++
  (match f.patch with
   | some p =>
     "```diff\n" ++ jsSubstring p 300 ++
       (if p.length > 300 then "..." else "") ++ "\n```\n"
   | none => "")

/-- The rendered summarize-pr report text. -/
def renderSummary (prNumber : Nat) (pr : PRData) (files : List PRFileData) : String :=
  "# PR #" ++ toString prNumber ++ " Summary\n\n" ++
  "**Title**: " ++ pr.title ++ "\n\n" ++
  "**Description**:\n" ++ orElseStr pr.body "No description provided" ++ "\n\n" ++
  "**Changes**: " ++ toString files.length ++ " files changed, " ++
  toString (totalAdditions files) ++ " additions, " ++
  toString (totalDeletions files) ++ " deletions\n\n" ++
  "## Modified Files\n\n" ++
  String.intercalate "\n\n" (files.map renderFileSection)

/-- The summarize-pr tool handler. -/
def summarizePr (g : Forge) (owner repo : String) (prNumber : Nat) :
    List RemoteCall × Envelope :=
  match g.getPull owner repo prNumber with
  | .error e =>
    ([.getPull owner repo prNumber],
     textEnv ("Error summarizing PR: " ++ e.message) true)
  | .ok pr =>
    match g.getPullFiles owner repo prNumber with
    | .error e =>
      ([.getPull owner repo prNumber, .getPullFiles owner repo prNumber],
       textEnv ("Error summarizing PR: " ++ e.message) true)
    | .ok files =>
      ([.getPull owner repo prNumber, .getPullFiles owner repo prNumber],
       textEnv (renderSummary prNumber pr files) false)

/-- The close-pr tool handler: fetch state, no-op if non-open, else close
via the issue endpoint and, when the reason is truthy, post it as a comment. -/
def closePr (g : Forge) (owner repo : String) (prNumber : Nat)
    (reason : Option String) : List RemoteCall × Envelope :=
  match g.getPull owner repo prNumber with
  | .error e =>
    ([.getPull owner repo prNumber],
     textEnv ("Error closing PR: " ++ e.message) true)
  | .ok pr =>
    if pr.state ≠ "open" then
      ([.getPull owner repo prNumber],
       textEnv ("PR #" ++ toString prNumber ++ " is already " ++ pr.state ++
         ". No action taken.") false)
    else
      match g.patchIssueState owner repo prNumber "closed" with
      | .error e =>
        ([.getPull owner repo prNumber,
          .patchIssueState owner repo prNumber "closed"],
         textEnv ("Error closing PR: " ++ e.message) true)
      | .ok _ =>
        if strTruthy reason then
          match g.postIssueComment owner repo prNumber
              ("Closing this PR: " ++ reason.getD "") with
          | .error e =>
            ([.getPull owner repo prNumber,
              .patchIssueState owner repo prNumber "closed",
              .postIssueComment owner repo prNumber
                ("Closing this PR: " ++ reason.getD "")],
             textEnv ("Error closing PR: " ++ e.message) true)
          | .ok _ =>
            ([.getPull owner repo prNumber,
              .patchIssueState owner repo prNumber "closed",
              .postIssueComment owner repo prNumber
                ("Closing this PR: " ++ reason.getD "")],
             textEnv ("✅ PR #" ++ toString prNumber ++ " has been closed" ++
               " with reason: " ++ reason.getD "" ++ ".") false)
        else
          ([.getPull owner repo prNumber,
            .patchIssueState owner repo prNumber "closed"],
           textEnv ("✅ PR #" ++ toString prNumber ++ " has been closed.") false)

/-- The base64 alphabet. -/
def base64Alphabet : List Char :=
  "ABCDEFGHIJKLMNOPQRSTUVWXYZabcdefghijklmnopqrstuvwxyz0123456789+/".data

/-- The base64 digit for a 6-bit value. -/
def b64Char (i : Nat) : Char := base64Alphabet.getD i 'A'

/-- Base64-encode a byte list (values < 256), with padding. -/
def base64Chunks : List Nat → String
  | [] => ""
  | [b0] =>
    String.mk [b64Char (b0 / 4), b64Char (b0 % 4 * 16)] ++ "=="
  | [b0, b1] =>
    String.mk [b64Char (b0 / 4), b64Char (b0 % 4 * 16 + b1 / 16),
      b64Char (b1 % 16 * 4)] ++ "="
  | b0 :: b1 :: b2 :: rest =>
    String.mk [b64Char (b0 / 4), b64Char (b0 % 4 * 16 + b1 / 16),
      b64Char (b1 % 16 * 4 + b2 / 64), b64Char (b2 % 64)] ++ base64Chunks rest

/-- `Buffer.from(content).toString('base64')`: base64 of the UTF-8 bytes. -/
def base64Encode (s : String) : String :=
  base64Chunks (s.toUTF8.toList.map (fun b => b.toNat))

/-- `Promise.all` over already-settled results: all values, or the first
error in list order. -/
def collectAll {α : Type} : List (Except ApiError α) → Except ApiError (List α)
  | [] => .ok []
  | .ok a :: rest =>
    match collectAll rest with
    | .ok as => .ok (a :: as)
    | .error e => .error e
  | .error e :: _ => .error e

/-- JavaScript `!files || files.length === 0`. -/
def filesEmpty (files : Option (List RepoFile)) : Bool :=
  match files with
  | none => true
  | some fs => fs.isEmpty

/-- The success text of create-repository shared header. -/
def createdHeader (name repoOwner : String) (isPrivate : Bool) (url : String) : String :=
  "✅ Repository created successfully!\n\nName: " ++ name ++
  "\nOwner: " ++ repoOwner ++
  "\nVisibility: " ++ (if isPrivate then "Private" else "Public") ++
  "\nURL: " ++ url

/-- The file-initialization tail of the create-repository workflow, entered
with the created repository's data; issues fetch-ref, the blob creations
(serialized in file order), fetch-tree, create-tree, create-commit and
update-ref, aborting with an error envelope at the first failure.
`pre` is the call trace accumulated so far (the create call). -/
def initializeFiles (g : Forge) (pre : List RemoteCall)
    (name : String) (isPrivate : Bool) (repoData : RepoData)
    (fs : List RepoFile) : List RemoteCall × Envelope :=
  let repoOwner := repoData.owner_login
  let repo := repoData.name
  let defaultBranch := repoData.default_branch
  let refCall := RemoteCall.getRef repoOwner repo ("heads/" ++ defaultBranch)
  match g.getRef repoOwner repo ("heads/" ++ defaultBranch) with
  | .error e =>
    (pre ++ [refCall], textEnv ("Error creating repository: " ++ e.message) true)
  | .ok latestCommitSha =>
    let blobCalls := fs.map (fun f =>
      RemoteCall.postBlob repoOwner repo (base64Encode f.content) "base64")
    let blobResults := fs.map (fun f =>
      g.postBlob repoOwner repo (base64Encode f.content) "base64")
    match collectAll blobResults with
    | .error e =>
      (pre ++ refCall :: blobCalls,
       textEnv ("Error creating repository: " ++ e.message) true)
    | .ok shas =>
      let treeCall := RemoteCall.getTree repoOwner repo latestCommitSha "true"
      match g.getTree repoOwner repo latestCommitSha "true" with
      | .error e =>
        (pre ++ refCall :: blobCalls ++ [treeCall],
         textEnv ("Error creating repository: " ++ e.message) true)
      | .ok baseTreeSha =>
        let treeItems := List.zipWith
          (fun (f : RepoFile) sha => TreeItem.mk f.path "100644" "blob" sha) fs shas
        let newTreeCall := RemoteCall.postTree repoOwner repo baseTreeSha treeItems
        match g.postTree repoOwner repo baseTreeSha treeItems with
        | .error e =>
          (pre ++ refCall :: blobCalls ++ [treeCall, newTreeCall],
           textEnv ("Error creating repository: " ++ e.message) true)
        | .ok newTreeSha =>
          let commitCall := RemoteCall.postCommit repoOwner repo
            "Add initial files" newTreeSha [latestCommitSha]
          match g.postCommit repoOwner repo "Add initial files" newTreeSha
              [latestCommitSha] with
          | .error e =>
            (pre ++ refCall :: blobCalls ++ [treeCall, newTreeCall, commitCall],
             textEnv ("Error creating repository: " ++ e.message) true)
          | .ok commitSha =>
            let refPatch := RemoteCall.patchRef repoOwner repo
              ("heads/" ++ defaultBranch) commitSha
            match g.patchRef repoOwner repo ("heads/" ++ defaultBranch) commitSha with
            | .error e =>
              (pre ++ refCall :: blobCalls ++
                 [treeCall, newTreeCall, commitCall, refPatch],
               textEnv ("Error creating repository: " ++ e.message) true)
            | .ok _ =>
              let fileList := String.intercalate "\n"
                (fs.map (fun f => "- " ++ f.path))
              (pre ++ refCall :: blobCalls ++
                 [treeCall, newTreeCall, commitCall, refPatch],
               textEnv (createdHeader name repoData.owner_login isPrivate
                   repoData.html_url ++
                 "\n\nAdded " ++ toString fs.length ++ " files:\n" ++ fileList) false)

/-- The repository-create call result: the org endpoint when an owner is
given (truthy), the user endpoint otherwise. -/
def createRepoResult (g : Forge) (owner : Option String) (params : CreateParams) :
    Except ApiError RepoData :=
  if strTruthy owner then g.postOrgRepo (owner.getD "") params
  else g.postUserRepo params

/-- The create-repository tool handler. -/
def createRepository (g : Forge) (owner : Option String) (name : String)
    (description : Option String) (isPrivate : Bool)
    (files : Option (List RepoFile)) (initializeWithReadme : Bool) :
    List RemoteCall × Envelope :=
  let params : CreateParams :=
    ⟨name, orElseStr description "", isPrivate, initializeWithReadme⟩
  let createCall : RemoteCall :=
    if strTruthy owner then .postOrgRepo (owner.getD "") params
    else .postUserRepo params
  match createRepoResult g owner params with
  | .error e =>
    ([createCall], textEnv ("Error creating repository: " ++ e.message) true)
  | .ok repoData =>
    if filesEmpty files && initializeWithReadme then
      ([createCall],
       textEnv (createdHeader name repoData.owner_login isPrivate
           repoData.html_url ++ "\n\nInitialized with README.md") false)
    else
      match files with
      | some fs =>
        if fs.length > 0 then
          initializeFiles g [createCall] name isPrivate repoData fs
        else
          ([createCall],
           textEnv (createdHeader name repoData.owner_login isPrivate
             repoData.html_url) false)
      | none =>
        ([createCall],
         textEnv (createdHeader name repoData.owner_login isPrivate
           repoData.html_url) false)

/-- The specialized error message of delete-repository's outer catch. -/
def deleteErrorMessage (owner repo : String) (e : ApiError) : String :=
  if e.status = some 403 then
    "You don\x27t have permission to delete the repository " ++ owner ++ "/" ++
      repo ++ ". Make sure your GitHub token has the necessary permissions."
  else if e.status = some 404 then
    "Repository " ++ owner ++ "/" ++ repo ++
      " not found. It may have already been deleted or you might not have access to it."
  else if e.status = some 401 then
    "Authentication failed. Check your GitHub token."
  else
    "Error deleting repository: " ++ e.message

/-- The delete-repository tool handler: confirmation gate, existence probe
(404 short-circuits), then the delete call. -/
def deleteRepository (g : Forge) (owner repo : String) (confirmation : Bool) :
    List RemoteCall × Envelope :=
  if !confirmation then
    ([], textEnv ("⚠️ Repository deletion aborted. The \x27confirmation\x27 " ++
      "parameter must be set to true to proceed with deletion.") false)
  else
    match g.getRepo owner repo with
    | .error e =>
      if e.status = some 404 then
        ([.getRepo owner repo],
         textEnv ("⚠️ Repository " ++ owner ++ "/" ++ repo ++
           " does not exist or you don\x27t have access to it.") true)
      else
        ([.getRepo owner repo],
         textEnv (deleteErrorMessage owner repo e) true)
    | .ok _ =>
      match g.deleteRepo owner repo with
      | .ok _ =>
        ([.getRepo owner repo, .deleteRepo owner repo],
         textEnv ("🗑️ Repository " ++ owner ++ "/" ++ repo ++
           " has been successfully deleted.") false)
      | .error e =>
        ([.getRepo owner repo, .deleteRepo owner repo],
         textEnv (deleteErrorMessage owner repo e) true)

/-- A concrete open, mergeable pull request used by concrete runs. -/
def prOpen : PRData :=
  ⟨1, "Add feature", some "body", "http://pr/1", "open", "2024-01-01", some "alice", some true⟩

/-- A concrete open pull request whose mergeable flag is false. -/
def prConflicted : PRData :=
  ⟨1, "Add feature", some "body", "http://pr/1", "open", "2024-01-01", some "alice", some false⟩

/-- A concrete repository-create response. -/
def repoDefault : RepoData := ⟨"me", "newrepo", "main", "http://repo"⟩

/-- A stub forge on which every call succeeds with fixed data. -/
def baseForge : Forge :=
  ⟨fun _ _ _ => .ok [], fun _ _ _ => .ok prOpen, fun _ _ _ _ => .ok (),
   fun _ _ _ _ => .ok (), fun _ _ _ _ _ _ => .ok (), fun _ _ _ => .ok [],
   fun _ _ _ _ => .ok (), fun _ => .ok repoDefault, fun _ _ => .ok repoDefault,
   fun _ _ _ => .ok "headsha", fun _ _ _ _ => .ok "blobsha",
   fun _ _ _ _ => .ok "treesha", fun _ _ _ _ => .ok "newtreesha",
   fun _ _ _ _ _ => .ok "commitsha", fun _ _ _ _ => .ok (),
   fun _ _ => .ok (), fun _ _ => .ok ()⟩

/-- A stub forge whose repository-existence probe fails with HTTP 404. -/
def forge404 : Forge :=
  { baseForge with getRepo := fun _ _ => .error ⟨some 404, "Not Found"⟩ }

/-- A stub forge whose list-pulls call fails with a plain error. -/
def forgeListErr : Forge :=
  { baseForge with listPulls := fun _ _ _ => .error ⟨none, "boom"⟩ }

/-- A stub forge whose fetched PR is open but not mergeable. -/
def forgeConflicted : Forge :=
  { baseForge with getPull := fun _ _ _ => .ok prConflicted }

/-- C6: delete-repository with confirmation=false issues zero remote calls
and returns a single-block informational envelope not flagged as an error. -/
theorem delete_no_confirmation_is_noop (g : Forge) (owner repo : String) :
    (deleteRepository g owner repo false).1 = [] ∧
    (deleteRepository g owner repo false).2.isError = false ∧
    (deleteRepository g owner repo false).2.content =
      [⟨"text", "⚠️ Repository deletion aborted. The \x27confirmation\x27 " ++
        "parameter must be set to true to proceed with deletion."⟩] :=
  ⟨rfl, rfl, rfl⟩

/-- C1 counterexample: with confirmation=true and an existence probe failing
with status 404, the handler's "does not exist" envelope IS flagged as an
error (isError = true), contradicting the claim that it is not; the delete
call is indeed never issued. -/
theorem delete_probe404_flags_error :
    ¬ ((deleteRepository forge404 "o" "r" true).2.isError = false) ∧
    (deleteRepository forge404 "o" "r" true).1 = [RemoteCall.getRepo "o" "r"] := by
  constructor
  · intro h
    simp [deleteRepository, forge404, baseForge, textEnv] at h
  · rfl

/-- C1 amended: with confirmation=true, a 404 from the existence probe
short-circuits to the "does not exist" envelope with isError = true, and
the delete call is never issued. -/
theorem delete_probe404_short_circuit (g : Forge) (owner repo : String)
    (e : ApiError) (hg : g.getRepo owner repo = .error e)
    (h404 : e.status = some 404) :
    (deleteRepository g owner repo true).1 = [RemoteCall.getRepo owner repo] ∧
    (deleteRepository g owner repo true).2 =
      textEnv ("⚠️ Repository " ++ owner ++ "/" ++ repo ++
        " does not exist or you don\x27t have access to it.") true := by
  simp [deleteRepository, hg, h404]

/-- C1 amended, witnessed at a concrete 404-failing probe. -/
theorem delete_probe404_short_circuit_witness :
    forge404.getRepo "o" "r" = .error ⟨some 404, "Not Found"⟩ ∧
    (deleteRepository forge404 "o" "r" true).1 = [RemoteCall.getRepo "o" "r"] :=
  ⟨rfl, (delete_probe404_short_circuit forge404 "o" "r" ⟨some 404, "Not Found"⟩ rfl rfl).1⟩

/-- C2 counterexample: on an empty pull-request list, list-prs renders the
JSON of the empty structure ("[]") after the state header; the text carries
no "no PRs" message. The envelope is indeed not an error. -/
theorem listPrs_empty_renders_structure :
    (listPrs baseForge "o" "r" "open").2 =
      textEnv ("Open PRs for o/r:\n\n" ++ stringifyPRItems []) false ∧
    ¬ List.IsInfix "no PRs".data
      (((listPrs baseForge "o" "r" "open").2.content.headD ⟨"text", ""⟩).text).data ∧
    ¬ List.IsInfix "No PRs".data
      (((listPrs baseForge "o" "r" "open").2.content.headD ⟨"text", ""⟩).text).data := by
  refine ⟨rfl, ?_, ?_⟩ <;> decide

/-- C2 amended: on an empty pull-request list, list-prs returns a non-error
envelope whose text is the capitalized state header followed by the JSON
rendering "[]" of the empty list (no special "no PRs" message exists). -/
theorem listPrs_empty_nonerror (g : Forge) (owner repo state : String)
    (h : g.listPulls owner repo state = .ok []) :
    (listPrs g owner repo state).2 =
      textEnv (capitalizeFirst state ++ " PRs for " ++ owner ++ "/" ++ repo ++
        ":\n\n" ++ "[]") false := by
  simp [listPrs, h, stringifyPRItems]

/-- C2 amended, witnessed at a concrete empty forge response. -/
theorem listPrs_empty_nonerror_witness :
    baseForge.listPulls "o" "r" "open" = .ok [] ∧
    (listPrs baseForge "o" "r" "open").2 =
      textEnv (capitalizeFirst "open" ++ " PRs for o/r:\n\n[]") false :=
  ⟨rfl, listPrs_empty_nonerror baseForge "o" "r" "open" rfl⟩

/-- C8 counterexample: when the list-pulls call fails, discuss-pr without a
number and list-prs with state "open" return different envelopes (their
error texts differ: "Error fetching PR s: " versus "Error fetching PRs: "),
so the two tools do not agree on every forge outcome. -/
theorem discussPr_listPrs_differ_on_error :
    (discussPr forgeListErr "o" "r" none none).2 ≠
      (listPrs forgeListErr "o" "r" "open").2 := by
  decide

/-- C8 amended: whenever the list-pulls call succeeds, discuss-pr invoked
with only owner and repo (no number, no query) issues the same remote call
and returns the same envelope as list-prs with state "open"; when the call
fails, both return a single-block error envelope but the error texts differ
by one space ("PR s" versus "PRs"). This theorem settles the success case. -/
theorem discussPr_browse_eq_listPrs_open (g : Forge) (owner repo : String)
    (data : List PRData) (h : g.listPulls owner repo "open" = .ok data) :
    discussPr g owner repo none none = listPrs g owner repo "open" := by
  have hcap : capitalizeFirst "open" = "Open" := by decide
  simp [discussPr, listPrs, h, hcap]

/-- C8 amended, witnessed at a concrete successful forge response. -/
theorem discussPr_browse_eq_listPrs_open_witness :
    baseForge.listPulls "o" "r" "open" = .ok [] ∧
    discussPr baseForge "o" "r" none none = listPrs baseForge "o" "r" "open" :=
  ⟨rfl, discussPr_browse_eq_listPrs_open baseForge "o" "r" [] rfl⟩

/-- C3: if the pre-merge fetch reports a mergeable flag other than true
(false or unknown), the merge call is never issued and the envelope is the
informational non-error one; conversely a merge call appears in the trace
only when the fetched flag is true. -/
theorem mergePr_gated_on_mergeable (g : Forge) (owner repo : String)
    (n : Nat) (ct cm : Option String) :
    (∀ pr, g.getPull owner repo n = .ok pr → pr.mergeable ≠ some true →
      (mergePr g owner repo n ct cm).1 = [RemoteCall.getPull owner repo n] ∧
      (mergePr g owner repo n ct cm).2 =
        textEnv ("⚠️ PR #" ++ toString n ++
          " is not mergeable. It may have conflicts that need to be resolved.")
          false) ∧
    (∀ c ∈ (mergePr g owner repo n ct cm).1, c.kind = CallKind.putMerge →
      ∃ pr, g.getPull owner repo n = .ok pr ∧ pr.mergeable = some true) := by
  constructor
  · intro pr hpr hm
    simp [mergePr, hpr, hm]
  · intro c hc hk
    cases hpr : g.getPull owner repo n with
    | error e =>
      simp [mergePr, hpr] at hc
      simp [hc, RemoteCall.kind] at hk
    | ok pr =>
      by_cases hm : pr.mergeable = some true
      · exact ⟨pr, rfl, hm⟩
      · simp [mergePr, hpr, hm] at hc
        simp [hc, RemoteCall.kind] at hk

/-- C3, witnessed at a concrete open PR with mergeable = false. -/
theorem mergePr_gated_on_mergeable_witness :
    forgeConflicted.getPull "o" "r" 1 = .ok prConflicted ∧
    (mergePr forgeConflicted "o" "r" 1 none none).1 =
      [RemoteCall.getPull "o" "r" 1] ∧
    (mergePr forgeConflicted "o" "r" 1 none none).2.isError = false := by
  refine ⟨rfl, ?_, ?_⟩
  · exact ((mergePr_gated_on_mergeable forgeConflicted "o" "r" 1 none none).1
      prConflicted rfl (by decide)).1
  · rw [((mergePr_gated_on_mergeable forgeConflicted "o" "r" 1 none none).1
      prConflicted rfl (by decide)).2]
    rfl

/-- C5 counterexample: with the PR open and every call succeeding, close-pr
invoked with the supplied (but empty) reason "" issues no comment-creation
call after the state update: the claim's "exactly one comment-creation call
follows" fails because the source tests `if (reason)`, and the empty string
is falsy in JavaScript. -/
theorem closePr_empty_reason_no_comment :
    (closePr baseForge "o" "r" 1 (some "")).1 =
      [RemoteCall.getPull "o" "r" 1,
       RemoteCall.patchIssueState "o" "r" 1 "closed"] ∧
    ((closePr baseForge "o" "r" 1 (some "")).1.countP
      (fun c => c.kind == CallKind.postIssueComment)) = 0 := by
  refine ⟨rfl, ?_⟩
  decide

/-- C5 amended: if the fetched state is not open, no state-update call is
issued and the informational no-op envelope names the current state; if the
state is open, a non-empty reason is supplied and the state-update succeeds,
exactly one comment-creation call follows the state-update call (the trace
is fetch, state-update, then the single comment call). -/
theorem closePr_state_gate (g : Forge) (owner repo : String) (n : Nat)
    (reason : Option String) :
    (∀ pr, g.getPull owner repo n = .ok pr → pr.state ≠ "open" →
      (closePr g owner repo n reason).1 = [RemoteCall.getPull owner repo n] ∧
      (closePr g owner repo n reason).2 =
        textEnv ("PR #" ++ toString n ++ " is already " ++ pr.state ++
          ". No action taken.") false) ∧
    (∀ pr re, g.getPull owner repo n = .ok pr → pr.state = "open" →
      reason = some re → re ≠ "" →
      g.patchIssueState owner repo n "closed" = .ok () →
      (closePr g owner repo n reason).1 =
        [RemoteCall.getPull owner repo n,
         RemoteCall.patchIssueState owner repo n "closed",
         RemoteCall.postIssueComment owner repo n ("Closing this PR: " ++ re)]) := by
  constructor
  · intro pr hpr hstate
    simp [closePr, hpr, hstate]
  · intro pr re hpr hstate hre hne hpatch
    subst hre
    cases hcmt : g.postIssueComment owner repo n ("Closing this PR: " ++ re) with
    | ok u =>
      cases u
      simp [closePr, hpr, hstate, hpatch, hcmt, strTruthy, hne]
    | error e =>
      simp [closePr, hpr, hstate, hpatch, hcmt, strTruthy, hne]

/-- C5 amended, witnessed at a concrete open PR with reason "because". -/
theorem closePr_state_gate_witness :
    baseForge.getPull "o" "r" 1 = .ok prOpen ∧
    (closePr baseForge "o" "r" 1 (some "because")).1 =
      [RemoteCall.getPull "o" "r" 1,
       RemoteCall.patchIssueState "o" "r" 1 "closed",
       RemoteCall.postIssueComment "o" "r" 1 "Closing this PR: because"] :=
  ⟨rfl, (closePr_state_gate baseForge "o" "r" 1 (some "because")).2
    prOpen "because" rfl rfl rfl (by decide) rfl⟩

/-- The concrete changed-file list with additions [3, 5] and deletions [1, 0]. -/
def sumFiles : List PRFileData :=
  [⟨"a.txt", "modified", 3, 1, 4, some "@@ -1 +1 @@"⟩,
   ⟨"b.txt", "added", 5, 0, 5, none⟩]

/-- A stub forge whose changed-file list is `sumFiles`. -/
def forgeSummary : Forge :=
  { baseForge with getPullFiles := fun _ _ _ => .ok sumFiles }

/-- Folding `fun s x => s + f x` from `a` equals `a` plus the sum of the map. -/
theorem foldl_add_eq_sum {α : Type} (f : α → Nat) (l : List α) (a : Nat) :
    l.foldl (fun s x => s + f x) a = a + (l.map f).sum := by
  induction l generalizing a with
  | nil => simp
  | cons x xs ih => simp [List.foldl_cons, ih, add_assoc]

set_option maxRecDepth 4000 in
/-- C9: summarize-pr's totalAdditions and totalDeletions are the sums of the
per-file additions and deletions; for files with additions [3, 5] and
deletions [1, 0] they are 8 and 1, and the rendered report of the handler
carries "8 additions, 1 deletions" in a non-error envelope. -/
theorem summarizePr_totals_are_sums :
    (∀ fs : List PRFileData,
      totalAdditions fs = (fs.map PRFileData.additions).sum ∧
      totalDeletions fs = (fs.map PRFileData.deletions).sum) ∧
    totalAdditions sumFiles = 8 ∧ totalDeletions sumFiles = 1 ∧
    List.IsInfix "8 additions, 1 deletions".data
      (((summarizePr forgeSummary "o" "r" 1).2.content.headD ⟨"text", ""⟩).text).data ∧
    (summarizePr forgeSummary "o" "r" 1).2.isError = false := by
  refine ⟨fun fs => ⟨?_, ?_⟩, by decide, by decide, by decide, rfl⟩
  · simpa [totalAdditions] using foldl_add_eq_sum PRFileData.additions fs 0
  · simpa [totalDeletions] using foldl_add_eq_sum PRFileData.deletions fs 0

/-- C10: create-repository with files=[] and initializeWithReadme=false
issues exactly the repository-create call (no ref, blob, tree, commit or
ref-update call), and when that call succeeds it returns the non-error
envelope describing the created repository (the default success text,
without the README line and without a file list). -/
theorem createRepository_emptyFiles_noReadme (g : Forge) (owner : Option String)
    (name : String) (d : Option String) (p : Bool) :
    (createRepository g owner name d p (some []) false).1.map RemoteCall.kind =
      [CallKind.createRepo] ∧
    (∀ rd, createRepoResult g owner ⟨name, orElseStr d "", p, false⟩ = .ok rd →
      (createRepository g owner name d p (some []) false).2 =
        textEnv (createdHeader name rd.owner_login p rd.html_url) false) := by
  constructor
  · cases hc : createRepoResult g owner ⟨name, orElseStr d "", p, false⟩ with
    | error e =>
      simp [createRepository, hc]
      cases howner : strTruthy owner <;> simp [howner, RemoteCall.kind]
    | ok rd =>
      simp [createRepository, hc, filesEmpty]
      cases howner : strTruthy owner <;> simp [howner, RemoteCall.kind]
  · intro rd hc
    simp [createRepository, hc, filesEmpty]

/-- C10, witnessed on the all-success stub forge. -/
theorem createRepository_emptyFiles_noReadme_witness :
    createRepoResult baseForge none ⟨"newrepo", "", false, false⟩ = .ok repoDefault ∧
    (createRepository baseForge none "newrepo" none false (some []) false).2 =
      textEnv (createdHeader "newrepo" repoDefault.owner_login false
        repoDefault.html_url) false :=
  ⟨rfl, (createRepository_emptyFiles_noReadme baseForge none "newrepo" none
    false).2 repoDefault rfl⟩

/-- Every envelope of list-prs has a content block. -/
theorem listPrs_content_ne (g : Forge) (owner repo state : String) :
    (listPrs g owner repo state).2.content ≠ [] := by
  unfold listPrs
  split <;> simp [textEnv]

/-- Every envelope of discuss-pr has a content block. -/
theorem discussPr_content_ne (g : Forge) (owner repo : String)
    (prNumber : Option Nat) (query : Option String) :
    (discussPr g owner repo prNumber query).2.content ≠ [] := by
  unfold discussPr
  repeat' split
  all_goals simp [textEnv]

/-- Every envelope of comment-on-pr has a content block. -/
theorem commentOnPr_content_ne (g : Forge) (owner repo : String) (n : Nat)
    (comment : String) :
    (commentOnPr g owner repo n comment).2.content ≠ [] := by
  unfold commentOnPr
  split <;> simp [textEnv]

/-- Every envelope of request-reviewers has a content block. -/
theorem requestReviewers_content_ne (g : Forge) (owner repo : String) (n : Nat)
    (reviewers : List String) :
    (requestReviewers g owner repo n reviewers).2.content ≠ [] := by
  unfold requestReviewers
  split <;> simp [textEnv]

/-- Every envelope of merge-pr has a content block. -/
theorem mergePr_content_ne (g : Forge) (owner repo : String) (n : Nat)
    (ct cm : Option String) :
    (mergePr g owner repo n ct cm).2.content ≠ [] := by
  unfold mergePr
  repeat' split
  all_goals simp [textEnv]

/-- Every envelope of summarize-pr has a content block. -/
theorem summarizePr_content_ne (g : Forge) (owner repo : String) (n : Nat) :
    (summarizePr g owner repo n).2.content ≠ [] := by
  unfold summarizePr
  repeat' split
  all_goals simp [textEnv]

/-- Every envelope of close-pr has a content block. -/
theorem closePr_content_ne (g : Forge) (owner repo : String) (n : Nat)
    (reason : Option String) :
    (closePr g owner repo n reason).2.content ≠ [] := by
  unfold closePr
  repeat' split
  all_goals simp [textEnv]

/-- Every envelope of the file-initialization tail has a content block. -/
theorem initializeFiles_content_ne (g : Forge) (pre : List RemoteCall)
    (name : String) (p : Bool) (rd : RepoData) (fs : List RepoFile) :
    (initializeFiles g pre name p rd fs).2.content ≠ [] := by
  unfold initializeFiles
  dsimp only
  repeat' split
  all_goals simp [textEnv]

/-- Every envelope of create-repository has a content block. -/
theorem createRepository_content_ne (g : Forge) (owner : Option String)
    (name : String) (d : Option String) (p : Bool)
    (files : Option (List RepoFile)) (readme : Bool) :
    (createRepository g owner name d p files readme).2.content ≠ [] := by
  unfold createRepository
  dsimp only
  repeat' split
  all_goals first
    | apply initializeFiles_content_ne
    | simp [textEnv]

/-- Every envelope of delete-repository has a content block. -/
theorem deleteRepository_content_ne (g : Forge) (owner repo : String)
    (conf : Bool) :
    (deleteRepository g owner repo conf).2.content ≠ [] := by
  unfold deleteRepository
  repeat' split
  all_goals simp [textEnv]

/-- C7: for every tool and every outcome of its remote calls, the returned
envelope contains at least one content block; no path returns an empty
block list. -/
theorem handlers_content_nonempty :
    ∀ (g : Forge) (owner repo state comment name : String) (n : Nat)
      (prNumber : Option Nat) (query reason d ct cm : Option String)
      (reviewers : List String) (oOwner : Option String)
      (p readme conf : Bool) (files : Option (List RepoFile)),
      (listPrs g owner repo state).2.content ≠ [] ∧
      (discussPr g owner repo prNumber query).2.content ≠ [] ∧
      (commentOnPr g owner repo n comment).2.content ≠ [] ∧
      (requestReviewers g owner repo n reviewers).2.content ≠ [] ∧
      (mergePr g owner repo n ct cm).2.content ≠ [] ∧
      (summarizePr g owner repo n).2.content ≠ [] ∧
      (closePr g owner repo n reason).2.content ≠ [] ∧
      (createRepository g oOwner name d p files readme).2.content ≠ [] ∧
      (deleteRepository g owner repo conf).2.content ≠ [] :=
  fun g owner repo state comment name n prNumber query reason d ct cm
      reviewers oOwner p readme conf files =>
    ⟨listPrs_content_ne g owner repo state,
     discussPr_content_ne g owner repo prNumber query,
     commentOnPr_content_ne g owner repo n comment,
     requestReviewers_content_ne g owner repo n reviewers,
     mergePr_content_ne g owner repo n ct cm,
     summarizePr_content_ne g owner repo n,
     closePr_content_ne g owner repo n reason,
     createRepository_content_ne g oOwner name d p files readme,
     deleteRepository_content_ne g owner repo conf⟩

/-- The canonical endpoint-kind sequence of a create-repository run with a
non-empty file list: create, fetch-ref, one blob-create per file, fetch-tree,
create-tree, create-commit, update-ref. -/
def canonicalKinds (fs : List RepoFile) : List CallKind :=
  CallKind.createRepo :: CallKind.fetchRef ::
    (List.replicate fs.length CallKind.createBlob ++
     [CallKind.fetchTree, CallKind.createTree, CallKind.createCommit,
      CallKind.updateRef])

/-- The kinds of the blob-create calls are one createBlob per file. -/
theorem blob_calls_kinds (ro rp : String) (fs : List RepoFile) :
    List.map (RemoteCall.kind ∘ fun f =>
      RemoteCall.postBlob ro rp (base64Encode f.content) "base64") fs =
    List.replicate fs.length CallKind.createBlob := by
  induction fs with
  | nil => rfl
  | cons f t ih =>
    simp only [List.map_cons, List.length_cons, List.replicate_succ, ih]
    rfl

/-- The kind trace of the file-initialization tail is always a prefix of
fetch-ref, blobs, fetch-tree, create-tree, create-commit, update-ref,
appended to the kinds of the calls issued before it. -/
theorem initializeFiles_kinds_prefix (g : Forge) (pre : List RemoteCall)
    (name : String) (p : Bool) (rd : RepoData) (fs : List RepoFile) :
    List.IsPrefix
      ((initializeFiles g pre name p rd fs).1.map RemoteCall.kind)
      (pre.map RemoteCall.kind ++ CallKind.fetchRef ::
        (List.replicate fs.length CallKind.createBlob ++
         [CallKind.fetchTree, CallKind.createTree, CallKind.createCommit,
          CallKind.updateRef])) := by
  cases href : g.getRef rd.owner_login rd.name ("heads/" ++ rd.default_branch) with
  | error e =>
    refine ⟨List.replicate fs.length CallKind.createBlob ++
      [CallKind.fetchTree, CallKind.createTree, CallKind.createCommit,
       CallKind.updateRef], ?_⟩
    simp [initializeFiles, href, RemoteCall.kind]
  | ok sha =>
    cases hblob : collectAll (fs.map fun f =>
        g.postBlob rd.owner_login rd.name (base64Encode f.content) "base64") with
    | error e =>
      refine ⟨[CallKind.fetchTree, CallKind.createTree, CallKind.createCommit,
        CallKind.updateRef], ?_⟩
      simp [initializeFiles, href, hblob, RemoteCall.kind, blob_calls_kinds]
    | ok shas =>
      cases htree : g.getTree rd.owner_login rd.name sha "true" with
      | error e =>
        refine ⟨[CallKind.createTree, CallKind.createCommit,
          CallKind.updateRef], ?_⟩
        simp [initializeFiles, href, hblob, htree, RemoteCall.kind,
          blob_calls_kinds]
      | ok baseTreeSha =>
        cases hnt : g.postTree rd.owner_login rd.name baseTreeSha
            (List.zipWith (fun (f : RepoFile) sha =>
              TreeItem.mk f.path "100644" "blob" sha) fs shas) with
        | error e =>
          refine ⟨[CallKind.createCommit, CallKind.updateRef], ?_⟩
          simp [initializeFiles, href, hblob, htree, hnt, RemoteCall.kind,
            blob_calls_kinds]
        | ok newTreeSha =>
          cases hcmt : g.postCommit rd.owner_login rd.name "Add initial files"
              newTreeSha [sha] with
          | error e =>
            refine ⟨[CallKind.updateRef], ?_⟩
            simp [initializeFiles, href, hblob, htree, hnt, hcmt,
              RemoteCall.kind, blob_calls_kinds]
          | ok commitSha =>
            cases hpr : g.patchRef rd.owner_login rd.name
                ("heads/" ++ rd.default_branch) commitSha with
            | error e =>
              refine ⟨[], ?_⟩
              simp [initializeFiles, href, hblob, htree, hnt, hcmt, hpr,
                RemoteCall.kind, blob_calls_kinds]
            | ok u =>
              refine ⟨[], ?_⟩
              simp [initializeFiles, href, hblob, htree, hnt, hcmt, hpr,
                RemoteCall.kind, blob_calls_kinds]

/-- When the file-initialization tail ends without an error envelope, its
kind trace is the whole canonical tail after the calls issued before it. -/
theorem initializeFiles_kinds_success (g : Forge) (pre : List RemoteCall)
    (name : String) (p : Bool) (rd : RepoData) (fs : List RepoFile)
    (h : (initializeFiles g pre name p rd fs).2.isError = false) :
    (initializeFiles g pre name p rd fs).1.map RemoteCall.kind =
      pre.map RemoteCall.kind ++ CallKind.fetchRef ::
        (List.replicate fs.length CallKind.createBlob ++
         [CallKind.fetchTree, CallKind.createTree, CallKind.createCommit,
          CallKind.updateRef]) := by
  cases href : g.getRef rd.owner_login rd.name ("heads/" ++ rd.default_branch) with
  | error e => simp [initializeFiles, href, textEnv] at h
  | ok sha =>
    cases hblob : collectAll (fs.map fun f =>
        g.postBlob rd.owner_login rd.name (base64Encode f.content) "base64") with
    | error e => simp [initializeFiles, href, hblob, textEnv] at h
    | ok shas =>
      cases htree : g.getTree rd.owner_login rd.name sha "true" with
      | error e => simp [initializeFiles, href, hblob, htree, textEnv] at h
      | ok baseTreeSha =>
        cases hnt : g.postTree rd.owner_login rd.name baseTreeSha
            (List.zipWith (fun (f : RepoFile) sha =>
              TreeItem.mk f.path "100644" "blob" sha) fs shas) with
        | error e =>
          simp [initializeFiles, href, hblob, htree, hnt, textEnv] at h
        | ok newTreeSha =>
          cases hcmt : g.postCommit rd.owner_login rd.name "Add initial files"
              newTreeSha [sha] with
          | error e =>
            simp [initializeFiles, href, hblob, htree, hnt, hcmt, textEnv] at h
          | ok commitSha =>
            cases hpr : g.patchRef rd.owner_login rd.name
                ("heads/" ++ rd.default_branch) commitSha with
            | error e =>
              simp [initializeFiles, href, hblob, htree, hnt, hcmt, hpr,
                textEnv] at h
            | ok u =>
              simp [initializeFiles, href, hblob, htree, hnt, hcmt, hpr,
                RemoteCall.kind, blob_calls_kinds]

/-- C4: create-repository with no files (absent or empty) and
initializeWithReadme=true issues exactly the repository-create call; with a
non-empty file list its kind trace is always a prefix of the canonical
sequence create, fetch-ref, one blob-create per file, fetch-tree,
create-tree, create-commit, update-ref, and equals the whole sequence
whenever the handler returns a non-error envelope. -/
theorem createRepository_call_order (g : Forge) (owner : Option String)
    (name : String) (d : Option String) (p : Bool)
    (files : Option (List RepoFile)) (readme : Bool) :
    (filesEmpty files = true → readme = true →
      (createRepository g owner name d p files readme).1.map RemoteCall.kind =
        [CallKind.createRepo]) ∧
    (∀ fs, files = some fs → fs ≠ [] →
      List.IsPrefix
        ((createRepository g owner name d p files readme).1.map RemoteCall.kind)
        (canonicalKinds fs) ∧
      ((createRepository g owner name d p files readme).2.isError = false →
        (createRepository g owner name d p files readme).1.map RemoteCall.kind =
          canonicalKinds fs)) := by
  constructor
  · intro hfe hr
    subst hr
    cases hc : createRepoResult g owner ⟨name, orElseStr d "", p, true⟩ with
    | error e =>
      simp only [createRepository, hc]
      cases howner : strTruthy owner <;> simp [howner, RemoteCall.kind]
    | ok rd =>
      simp only [createRepository, hc, hfe, Bool.true_and, if_pos rfl]
      cases howner : strTruthy owner <;> simp [howner, hfe, RemoteCall.kind]
  · intro fs hfs hne
    subst hfs
    have hfe : filesEmpty (some fs) = false := by
      cases fs with
      | nil => exact absurd rfl hne
      | cons a t => rfl
    have hlen : fs.length > 0 := List.length_pos.mpr hne
    cases hc : createRepoResult g owner ⟨name, orElseStr d "", p, readme⟩ with
    | error e =>
      constructor
      · refine ⟨CallKind.fetchRef ::
          (List.replicate fs.length CallKind.createBlob ++
           [CallKind.fetchTree, CallKind.createTree, CallKind.createCommit,
            CallKind.updateRef]), ?_⟩
        simp only [createRepository, hc, canonicalKinds]
        cases howner : strTruthy owner <;> simp [howner, RemoteCall.kind]
      · intro hsucc
        exfalso
        simp [createRepository, hc, textEnv] at hsucc
    | ok rd =>
      have heq : createRepository g owner name d p (some fs) readme =
          initializeFiles g
            [if strTruthy owner then
              RemoteCall.postOrgRepo (owner.getD "")
                ⟨name, orElseStr d "", p, readme⟩
             else RemoteCall.postUserRepo ⟨name, orElseStr d "", p, readme⟩]
            name p rd fs := by
        simp only [createRepository, hc, hfe, Bool.false_and, if_neg
          Bool.false_ne_true, hlen, if_pos hlen]
        cases howner : strTruthy owner <;> simp [howner]
      have hpk : ([if strTruthy owner then
            RemoteCall.postOrgRepo (owner.getD "")
              ⟨name, orElseStr d "", p, readme⟩
           else RemoteCall.postUserRepo
              ⟨name, orElseStr d "", p, readme⟩].map RemoteCall.kind) =
          [CallKind.createRepo] := by
        cases howner : strTruthy owner <;> simp [howner, RemoteCall.kind]
      constructor
      · have hp := initializeFiles_kinds_prefix g
          [if strTruthy owner then
            RemoteCall.postOrgRepo (owner.getD "")
              ⟨name, orElseStr d "", p, readme⟩
           else RemoteCall.postUserRepo ⟨name, orElseStr d "", p, readme⟩]
          name p rd fs
        rw [hpk] at hp
        rw [heq]
        simpa [canonicalKinds] using hp
      · intro hsucc
        rw [heq] at hsucc ⊢
        have hs := initializeFiles_kinds_success g
          [if strTruthy owner then
            RemoteCall.postOrgRepo (owner.getD "")
              ⟨name, orElseStr d "", p, readme⟩
           else RemoteCall.postUserRepo ⟨name, orElseStr d "", p, readme⟩]
          name p rd fs hsucc
        rw [hpk] at hs
        simpa [canonicalKinds] using hs

/-- A concrete repository-initialization input file. -/
def fileA : RepoFile := ⟨"README.md", "hello"⟩

/-- A second concrete repository-initialization input file. -/
def fileB : RepoFile := ⟨"src/main.js", "world"⟩

/-- C4, witnessed on the all-success stub forge with two input files. -/
theorem createRepository_call_order_witness :
    ([fileA, fileB] : List RepoFile) ≠ [] ∧
    (createRepository baseForge none "newrepo" none false
      (some [fileA, fileB]) true).1.map RemoteCall.kind =
      canonicalKinds [fileA, fileB] :=
  ⟨by decide,
   ((createRepository_call_order baseForge none "newrepo" none false
      (some [fileA, fileB]) true).2 [fileA, fileB] rfl (by decide)).2 (by decide)⟩
